import Mathlib

/-!
Shallow embedding of `src/engine/queue/queue_imp.go` (package `queue`, type
`queueImp`) and verification of the specification's claims about it.

The methods of `queueImp` are translated statement by statement.  The four
external collaborators (Broker Registry client `kafka.Manager`, Extended
Metadata Store `kafka.ExtendManager`, Message Transport
`kafka.Producer`/`kafka.Consumer`, Metrics Recorder `metrics.Monitor`) live
outside `src/`; their operations are modelled from the spec's interface
section (§6) as functions over an explicit state, with an `Env` record
deciding which external calls succeed, so that every error path of the
translated methods is reachable.
-/

set_option linter.unusedVariables false

namespace Wqs

/-- Error taxonomy: the `juju/errors` kinds used by the source
(`NotValidf`, `AlreadyExistsf`, `NotFoundf`, `NotImplementedf`) plus a
wrapper for errors surfaced by the external collaborators. -/
inductive Err where
  | notValid : String → Err
  | alreadyExists : String → Err
  | notFound : String → Err
  | notImplemented : String → Err
  | upstream : String → Err
deriving DecidableEq, Repr

/-- Go struct `model.GroupConfig` (fields Group, Queue, Write, Read, Url, Ips);
an omitted field in a Go composite literal is its zero value, mirrored here by
the defaults. -/
structure GroupConfig where
  group : String := ""
  queue : String := ""
  write : Bool := false
  read : Bool := false
  url : String := ""
  ips : List String := []
deriving DecidableEq, Repr

/-- Go struct `model.QueueInfo` (fields Queue, Ctime, Length, Groups). -/
structure QueueInfo where
  queue : String := ""
  ctime : Int := 0
  length : Nat := 0
  groups : List GroupConfig := []
deriving DecidableEq, Repr

/-- Go struct `model.GroupInfo` (fields Group, Queues). -/
structure GroupInfo where
  group : String := ""
  queues : List GroupConfig := []
deriving DecidableEq, Repr

/-- A topic known to the Broker Registry, with the physical layout recorded
at creation time. -/
structure Topic where
  name : String
  replications : Int
  partitions : Int
deriving DecidableEq, Repr

/-- Modelled from the spec: the Broker Registry.  `topics` is the
authoritative registry contents (what a refreshing `ExistTopic` consults);
`cachedNames` is the client's possibly stale cached view of topic names
(what a non-refreshing `ExistTopic` consults). -/
structure Broker where
  topics : List Topic := []
  cachedNames : List String := []
deriving DecidableEq, Repr

/-- Modelled from the spec: the Extended Metadata Store, holding queue
records with creation times, the queue→groups and group→queues name
indexes, and the group ACL records. -/
structure MetaStore where
  queues : List (String × Int) := []
  queueGroups : List (String × List String) := []
  groupQueues : List (String × List String) := []
  configs : List GroupConfig := []
deriving DecidableEq, Repr

/-- The consumer-session cache (`consumerMap` in the source).  A session is
identified by the value of the construction counter `nextId` at the moment
it was built, so "number of constructions so far" is observable as `nextId`. -/
structure Sessions where
  map : List (String × Nat) := []
  nextId : Nat := 0
deriving DecidableEq, Repr

/-- The full state a `queueImp` value can reach: the two stores, the session
cache, the transport's produced log, and the Metrics Recorder's counters. -/
structure QueueState where
  broker : Broker := {}
  meta : MetaStore := {}
  sessions : Sessions := {}
  producedLog : List (String × List Nat) := []
  sendCounts : List ((String × String) × Nat) := []
  recvCounts : List ((String × String) × Nat) := []
deriving DecidableEq, Repr

/-- Environment deciding the outcome of each external call made during one
method invocation, plus the metadata store's clock.  Every flag defaults to
success. -/
structure Env where
  existTopicOk : Bool := true
  existQueueOk : Bool := true
  addQueueOk : Bool := true
  delQueueOk : Bool := true
  createTopicOk : Bool := true
  deleteTopicOk : Bool := true
  produceOk : Bool := true
  newConsumerOk : Bool := true
  recvData : Except Err (List Nat) := .ok []
  addGroupConfigOk : Bool := true
  updateGroupConfigOk : Bool := true
  deleteGroupConfigOk : Bool := true
  getQueueMapOk : Bool := true
  getGroupMapOk : Bool := true
  getGroupConfigOk : Bool := true
  queueCreateTimeOk : Bool := true
  queryMetricsOk : Bool := true
  metricsAnswer : Int := 0
  now : Int := 0
deriving Repr

/-- The configuration fields of `config.Config` that the translated methods
read (`KafkaReplications`, `KafkaPartitions`). -/
structure Config where
  kafkaReplications : Int := 1
  kafkaPartitions : Int := 1
deriving DecidableEq, Repr

/-! Association-list helpers (Go map reads). -/

/-- First-match association-list lookup, the model of a Go map read. -/
def alookup (k : String) : List (String × α) → Option α
  | [] => none
  | (k2, v) :: rest => if k2 = k then some v else alookup k rest

/-- Add `n` to the counter stored under key `k`, creating the entry if absent. -/
def bumpCount (l : List ((String × String) × Nat)) (k : String × String) (n : Nat) :
    List ((String × String) × Nat) :=
  match l with
  | [] => [(k, n)]
  | (k2, m) :: rest => if k2 = k then (k2, m + n) :: rest else (k2, m) :: bumpCount rest k n

/-- Read the counter stored under key `k` (0 if absent). -/
def getCount (l : List ((String × String) × Nat)) (k : String × String) : Nat :=
  match l with
  | [] => 0
  | (k2, m) :: rest => if k2 = k then m else getCount rest k

/-! Broker Registry client operations (modelled from the spec, §6). -/

/-- Whether the authoritative registry holds a topic of this name. -/
def topicExists (b : Broker) (name : String) : Bool :=
  b.topics.any (fun t => t.name == name)

/-- Whether the client's cached view holds a topic of this name. -/
def cachedExists (b : Broker) (name : String) : Bool :=
  b.cachedNames.contains name

/-- Modelled from the spec: `ExistTopic(name, forceRefresh) -> (bool, err)`.
With `refresh = true` the authoritative registry is consulted; with
`refresh = false` only the cached view is. -/
def existTopic (e : Env) (b : Broker) (name : String) (refresh : Bool) : Except Err Bool :=
  if e.existTopicOk then
    .ok (if refresh then topicExists b name else cachedExists b name)
  else .error (.upstream "ExistTopic")

/-- Modelled from the spec: `CreateTopic(name, replication, partitions, registryAddr)`. -/
def createTopic (e : Env) (b : Broker) (name : String) (replications partitions : Int) :
    Except Err Broker :=
  if e.createTopicOk then
    .ok { b with topics := b.topics ++ [{ name := name, replications := replications,
                                          partitions := partitions }] }
  else .error (.upstream "CreateTopic")

/-- Modelled from the spec: `DeleteTopic(name, registryAddr)`; the stale
client cache is not touched. -/
def deleteTopic (e : Env) (b : Broker) (name : String) : Except Err Broker :=
  if e.deleteTopicOk then
    .ok { b with topics := b.topics.filter (fun t => t.name != name) }
  else .error (.upstream "DeleteTopic")

/-! Extended Metadata Store operations (modelled from the spec, §6). -/

/-- Whether the metadata store holds a queue record of this name. -/
def metaHas (m : MetaStore) (q : String) : Bool :=
  m.queues.any (fun p => p.1 == q)

/-- Modelled from the spec: `ExistQueue(name)`. -/
def existQueue (e : Env) (m : MetaStore) (q : String) : Except Err Bool :=
  if e.existQueueOk then .ok (metaHas m q) else .error (.upstream "ExistQueue")

/-- Modelled from the spec: `AddQueue(name)` stamps the creation time and
creates the queue's (empty) entry in the queue→groups index. -/
def addQueue (e : Env) (m : MetaStore) (q : String) : Except Err MetaStore :=
  if e.addQueueOk then
    .ok { m with queues := (q, e.now) :: m.queues,
                 queueGroups := (q, []) :: m.queueGroups }
  else .error (.upstream "AddQueue")

/-- Modelled from the spec: `DelQueue(name)` removes the queue record and its
queue→groups index entry. -/
def delQueue (e : Env) (m : MetaStore) (q : String) : Except Err MetaStore :=
  if e.delQueueOk then
    .ok { m with queues := m.queues.filter (fun p => p.1 != q),
                 queueGroups := m.queueGroups.filter (fun p => p.1 != q) }
  else .error (.upstream "DelQueue")

/-- Modelled from the spec: `QueueCreateTime(name)`; absence of the record is
a store-level error, not a defined answer. -/
def queueCreateTime (e : Env) (m : MetaStore) (q : String) : Except Err Int :=
  if e.queueCreateTimeOk then
    match alookup q m.queues with
    | some t => .ok t
    | none => .error (.upstream "QueueCreateTime")
  else .error (.upstream "QueueCreateTime")

/-- Modelled from the spec: `GetQueueMap() -> (queue -> [group names])`. -/
def getQueueMap (e : Env) (m : MetaStore) : Except Err (List (String × List String)) :=
  if e.getQueueMapOk then .ok m.queueGroups else .error (.upstream "GetQueueMap")

/-- Modelled from the spec: `GetGroupMap() -> (group -> [queue names])`. -/
def getGroupMap (e : Env) (m : MetaStore) : Except Err (List (String × List String)) :=
  if e.getGroupMapOk then .ok m.groupQueues else .error (.upstream "GetGroupMap")

/-- Modelled from the spec: `GetGroupConfig(group, queue) -> (record | nil, err)`;
the stored record carries both names together with the ACL fields. -/
def getGroupConfig (e : Env) (m : MetaStore) (group queue : String) :
    Except Err (Option GroupConfig) :=
  if e.getGroupConfigOk then
    .ok (m.configs.find? (fun c => c.group == group && c.queue == queue))
  else .error (.upstream "GetGroupConfig")

/-- Insert a group ACL record, replacing any record with the same
(group, queue) identity. -/
def upsertConfig (cs : List GroupConfig) (c : GroupConfig) : List GroupConfig :=
  match cs with
  | [] => [c]
  | c2 :: rest =>
    if c2.group = c.group ∧ c2.queue = c.queue then c :: rest else c2 :: upsertConfig rest c

/-- Record `v` under key `k` in a name→name index. -/
def addToIndex (idx : List (String × List String)) (k v : String) :
    List (String × List String) :=
  match idx with
  | [] => [(k, [v])]
  | (k2, vs) :: rest =>
    if k2 = k then (k2, if vs.contains v then vs else vs ++ [v]) :: rest
    else (k2, vs) :: addToIndex rest k v

/-- Remove `v` from the entry of key `k` in a name→name index. -/
def removeFromIndex (idx : List (String × List String)) (k v : String) :
    List (String × List String) :=
  idx.map (fun p => if p.1 = k then (p.1, p.2.filter (fun x => x != v)) else p)

/-- Modelled from the spec: `AddGroupConfig(group, queue, write, read, url, ips)`
upserts the ACL record and maintains both name indexes. -/
def addGroupConfig (e : Env) (m : MetaStore) (group queue : String)
    (write read : Bool) (url : String) (ips : List String) : Except Err MetaStore :=
  if e.addGroupConfigOk then
    .ok { m with
          configs := upsertConfig m.configs
            { group := group, queue := queue, write := write, read := read,
              url := url, ips := ips },
          queueGroups := addToIndex m.queueGroups queue group,
          groupQueues := addToIndex m.groupQueues group queue }
  else .error (.upstream "AddGroupConfig")

/-- Modelled from the spec: `UpdateGroupConfig(group, queue, write, read, url, ips)`. -/
def updateGroupConfig (e : Env) (m : MetaStore) (group queue : String)
    (write read : Bool) (url : String) (ips : List String) : Except Err MetaStore :=
  if e.updateGroupConfigOk then
    .ok { m with
          configs := upsertConfig m.configs
            { group := group, queue := queue, write := write, read := read,
              url := url, ips := ips },
          queueGroups := addToIndex m.queueGroups queue group,
          groupQueues := addToIndex m.groupQueues group queue }
  else .error (.upstream "UpdateGroupConfig")

/-- Modelled from the spec: `DeleteGroupConfig(group, queue)` removes the ACL
record and the index entries. -/
def deleteGroupConfig (e : Env) (m : MetaStore) (group queue : String) :
    Except Err MetaStore :=
  if e.deleteGroupConfigOk then
    .ok { m with
          configs := m.configs.filter (fun c => !(c.group == group && c.queue == queue)),
          queueGroups := removeFromIndex m.queueGroups queue group,
          groupQueues := removeFromIndex m.groupQueues group queue }
  else .error (.upstream "DeleteGroupConfig")

/-! Message Transport and Metrics Recorder (modelled from the spec, §6). -/

/-- Modelled from the spec: the transport's produce call; it partitions by
queue alone, so the produced record carries the queue name and the payload. -/
def produceMsg (e : Env) (log : List (String × List Nat)) (queue : String)
    (data : List Nat) : Except Err (List (String × List Nat)) :=
  if e.produceOk then .ok (log ++ [(queue, data)]) else .error (.upstream "Send")

/-- Modelled from the spec: the Metrics Recorder's time-bucketed aggregate
query, an external oracle whose answer the core passes through unchanged. -/
def queryMetrics (e : Env) : Except Err Int :=
  if e.queryMetricsOk then .ok e.metricsAnswer else .error (.upstream "metrics query")

/-! Methods of `queueImp`, translated statement by statement from
`src/engine/queue/queue_imp.go`.  Each takes the environment and the current
state and returns the Go results together with the successor state.  The
source builds a `NotValid` error for an empty name but never returns it
(there is no `return` in front of `errors.NotValidf`), so in the
translation that value is bound and dropped, exactly as in the source. -/

/-- Create a queue by name (`queueImp.Create`, lines 92-121). -/
def Create (conf : Config) (e : Env) (s : QueueState) (queue : String) :
    Except Err Unit × QueueState :=
  -- step 1: the source evaluates `errors.NotValidf(...)` and discards it
  let dropped := if queue.length == 0 then
    some (Err.notValid ("CreateQueue queue:" ++ queue)) else none
  -- step 2: kafka existence check, forced refresh
  match existTopic e s.broker queue true with
  | .error er => (.error er, s)
  | .ok exist =>
    if exist then (.error (.alreadyExists ("CreateQueue queue:" ++ queue ++ " ")), s)
    else
      -- step 3: metadata existence check
      match existQueue e s.meta queue with
      | .error er => (.error er, s)
      | .ok exist2 =>
        if exist2 then (.error (.alreadyExists ("CreateQueue queue:" ++ queue ++ " ")), s)
        else
          match addQueue e s.meta queue with
          | .error er => (.error er, s)
          | .ok meta2 =>
            match createTopic e s.broker queue conf.kafkaReplications conf.kafkaPartitions with
            | .error er => (.error er, { s with meta := meta2 })
            | .ok broker2 => (.ok (), { s with meta := meta2, broker := broker2 })

/-- Update queue information by name (`queueImp.Update`, lines 124-138);
a validated no-op placeholder. -/
def Update (e : Env) (s : QueueState) (queue : String) : Except Err Unit × QueueState :=
  let dropped := if queue.length == 0 then
    some (Err.notValid ("UpdateQueue queue:" ++ queue)) else none
  match existTopic e s.broker queue true with
  | .error er => (.error er, s)
  | .ok exist =>
    if !exist then (.error (.notFound ("UpdateQueue queue:" ++ queue ++ " ")), s)
    else (.ok (), s)

/-- Delete a queue by name (`queueImp.Delete`, lines 141-169). -/
def Delete (e : Env) (s : QueueState) (queue : String) : Except Err Unit × QueueState :=
  let dropped := if queue.length == 0 then
    some (Err.notValid ("DeleteQueue queue:" ++ queue)) else none
  match existTopic e s.broker queue true with
  | .error er => (.error er, s)
  | .ok exist =>
    if !exist then (.error (.notFound ("DeleteQueue queue:" ++ queue ++ " ")), s)
    else
      match existQueue e s.meta queue with
      | .error er => (.error er, s)
      | .ok exist2 =>
        if !exist2 then (.error (.notFound ("DeleteQueue queue:" ++ queue ++ " ")), s)
        else
          match delQueue e s.meta queue with
          | .error er => (.error er, s)
          | .ok meta2 =>
            match deleteTopic e s.broker queue with
            | .error er => (.error er, { s with meta := meta2 })
            | .ok broker2 => (.ok (), { s with meta := meta2, broker := broker2 })

/-- Inner loop of `Lookup`: for one queue, fold its group names over
`GetGroupConfig`, appending to the caller-supplied accumulator `gcs`
(the source shares one `groupConfigs` slice across the whole call). -/
def lookupQueueGroups (e : Env) (m : MetaStore) (queueName : String) :
    List String → List GroupConfig → Except Err (List GroupConfig)
  | [], gcs => .ok gcs
  | gName :: rest, gcs =>
    match getGroupConfig e m gName queueName with
    | .error er => .error er
    | .ok none => lookupQueueGroups e m queueName rest gcs  -- source only logs a warning
    | .ok (some c) =>
      lookupQueueGroups e m queueName rest
        (gcs ++ [{ group := c.group, write := c.write, read := c.read,
                   url := c.url, ips := c.ips }])

/-- Outer loop of `Lookup` for the all-queue mode, threading both the
`queueInfos` accumulator and the shared `groupConfigs` accumulator. -/
def lookupAllQueues (e : Env) (m : MetaStore) :
    List (String × List String) → List QueueInfo → List GroupConfig →
    Except Err (List QueueInfo)
  | [], acc, _ => .ok acc
  | (qName, gNames) :: rest, acc, gcs =>
    match lookupQueueGroups e m qName gNames gcs with
    | .error er => .error er
    | .ok gcs2 =>
      match queueCreateTime e m qName with
      | .error er => .error er
      | .ok ctime =>
        lookupAllQueues e m rest
          (acc ++ [{ queue := qName, ctime := ctime, length := 0, groups := gcs2 }]) gcs2

/-- Get queue information by queue and group name (`queueImp.Lookup`,
lines 173-280).  The Go version also returns the partially built slice next
to a non-nil error; callers only use the slice when the error is nil, so the
translation returns `Except`. -/
def Lookup (e : Env) (s : QueueState) (queue group : String) :
    Except Err (List QueueInfo) :=
  if queue = "" then
    match getQueueMap e s.meta with
    | .error er => .error er
    | .ok queueMap => lookupAllQueues e s.meta queueMap [] []
  else if group = "" then
    match getQueueMap e s.meta with
    | .error er => .error er
    | .ok queueMap =>
      match alookup queue queueMap with
      | none => .ok []  -- `break`: empty result, nil error
      | some gNames =>
        match lookupQueueGroups e s.meta queue gNames [] with
        | .error er => .error er
        | .ok gcs =>
          match queueCreateTime e s.meta queue with
          | .error er => .error er
          | .ok ctime =>
            .ok [{ queue := queue, ctime := ctime, length := 0, groups := gcs }]
  else
    match getGroupConfig e s.meta group queue with
    | .error er => .error er
    | .ok oc =>
      let gcs : List GroupConfig := match oc with
        | some c => [{ group := c.group, write := c.write, read := c.read,
                       url := c.url, ips := c.ips }]
        | none => []
      match queueCreateTime e s.meta queue with
      | .error er => .error er
      | .ok ctime => .ok [{ queue := queue, ctime := ctime, length := 0, groups := gcs }]

/-- Add a group to a queue (`queueImp.AddGroup`, lines 282-301). -/
def AddGroup (e : Env) (s : QueueState) (group queue : String)
    (write read : Bool) (url : String) (ips : List String) :
    Except Err Unit × QueueState :=
  let dropped := if group.length == 0 || queue.length == 0 then
    some (Err.notValid ("add group:" ++ group ++ " @ queue:" ++ queue)) else none
  match existTopic e s.broker queue true with
  | .error er => (.error er, s)
  | .ok exist =>
    if !exist then (.error (.notFound ("AddGroup queue:" ++ queue ++ " ")), s)
    else
      match addGroupConfig e s.meta group queue write read url ips with
      | .error er => (.error er, s)
      | .ok meta2 => (.ok (), { s with meta := meta2 })

/-- Update a group's config (`queueImp.UpdateGroup`, lines 303-322). -/
def UpdateGroup (e : Env) (s : QueueState) (group queue : String)
    (write read : Bool) (url : String) (ips : List String) :
    Except Err Unit × QueueState :=
  let dropped := if group.length == 0 || queue.length == 0 then
    some (Err.notValid ("add group:" ++ group ++ " @ queue:" ++ queue)) else none
  match existTopic e s.broker queue true with
  | .error er => (.error er, s)
  | .ok exist =>
    if !exist then (.error (.notFound ("UpdateGroup queue:" ++ queue ++ " ")), s)
    else
      match updateGroupConfig e s.meta group queue write read url ips with
      | .error er => (.error er, s)
      | .ok meta2 => (.ok (), { s with meta := meta2 })

/-- Delete a group from a queue (`queueImp.DeleteGroup`, lines 324-343). -/
def DeleteGroup (e : Env) (s : QueueState) (group queue : String) :
    Except Err Unit × QueueState :=
  let dropped := if group.length == 0 || queue.length == 0 then
    some (Err.notValid ("add group:" ++ group ++ " @ queue:" ++ queue)) else none
  match existTopic e s.broker queue true with
  | .error er => (.error er, s)
  | .ok exist =>
    if !exist then (.error (.notFound ("DeleteGroup queue:" ++ queue ++ " ")), s)
    else
      match deleteGroupConfig e s.meta group queue with
      | .error er => (.error er, s)
      | .ok meta2 => (.ok (), { s with meta := meta2 })

/-- Inner loop of `LookupGroup`: for one group, fold its queue names over
`GetGroupConfig`, appending to the shared accumulator. -/
def lookupGroupQueues (e : Env) (m : MetaStore) (groupName : String) :
    List String → List GroupConfig → Except Err (List GroupConfig)
  | [], gcs => .ok gcs
  | qName :: rest, gcs =>
    match getGroupConfig e m groupName qName with
    | .error er => .error er
    | .ok none => lookupGroupQueues e m groupName rest gcs  -- source only logs a warning
    | .ok (some c) =>
      lookupGroupQueues e m groupName rest
        (gcs ++ [{ queue := c.queue, write := c.write, read := c.read,
                   url := c.url, ips := c.ips }])

/-- Outer loop of `LookupGroup` for the all-group mode. -/
def lookupAllGroups (e : Env) (m : MetaStore) :
    List (String × List String) → List GroupInfo → List GroupConfig →
    Except Err (List GroupInfo)
  | [], acc, _ => .ok acc
  | (gName, qNames) :: rest, acc, gcs =>
    match lookupGroupQueues e m gName qNames gcs with
    | .error er => .error er
    | .ok gcs2 =>
      lookupAllGroups e m rest (acc ++ [{ group := gName, queues := gcs2 }]) gcs2

/-- Get group information (`queueImp.LookupGroup`, lines 346-414). -/
def LookupGroup (e : Env) (s : QueueState) (group : String) :
    Except Err (List GroupInfo) :=
  if group = "" then
    match getGroupMap e s.meta with
    | .error er => .error er
    | .ok groupMap => lookupAllGroups e s.meta groupMap [] []
  else
    match getGroupMap e s.meta with
    | .error er => .error er
    | .ok groupMap =>
      match alookup group groupMap with
      | none => .ok []
      | some qNames =>
        match lookupGroupQueues e s.meta group qNames [] with
        | .error er => .error er
        | .ok gcs => .ok [{ group := group, queues := gcs }]

/-- Get a single group's config (`queueImp.GetSingleGroup`, lines 416-427). -/
def GetSingleGroup (e : Env) (s : QueueState) (group queue : String) :
    Except Err (Option GroupConfig) :=
  match existTopic e s.broker queue true with
  | .error er => .error er
  | .ok exist =>
    if !exist then .error (.notFound ("GetSingleGroup queue:" ++ queue ++ " "))
    else getGroupConfig e s.meta group queue

/-- Send a message (`queueImp.SendMsg`, lines 429-444): lenient existence
check, produce keyed by queue alone, then the send counter bump. -/
def SendMsg (e : Env) (s : QueueState) (queue group : String) (data : List Nat) :
    Except Err Unit × QueueState :=
  match existTopic e s.broker queue false with
  | .error er => (.error er, s)
  | .ok exist =>
    if !exist then (.error (.notFound ("SendMsg queue:" ++ queue ++ " ")), s)
    else
      match produceMsg e s.producedLog queue data with
      | .error er => (.error er, s)
      | .ok log2 =>
        (.ok (), { s with producedLog := log2,
                          sendCounts := bumpCount s.sendCounts (queue, group) 1 })

/-- The blocking receive on an already-selected session, followed by the
receive counter bump (`consumer.Recv()` and `StatisticReceive`). -/
def recvOnSession (e : Env) (s : QueueState) (queue group : String) :
    Except Err (List Nat) × QueueState :=
  match e.recvData with
  | .error er => (.error er, s)
  | .ok data =>
    (.ok data, { s with recvCounts := bumpCount s.recvCounts (queue, group) 1 })

/-- Receive a message (`queueImp.ReceiveMsg`, lines 446-475): lenient
existence check, then the locked create-or-fetch on the session cache keyed
by `queue + "@" + group`, then the blocking receive outside the lock. -/
def ReceiveMsg (e : Env) (s : QueueState) (queue group : String) :
    Except Err (List Nat) × QueueState :=
  match existTopic e s.broker queue false with
  | .error er => (.error er, s)
  | .ok exist =>
    if !exist then (.error (.notFound ("ReceiveMsg queue:" ++ queue ++ " ")), s)
    else
      let id := queue ++ "@" ++ group
      match alookup id s.sessions.map with
      | some _ => recvOnSession e s queue group
      | none =>
        if e.newConsumerOk then
          recvOnSession e
            { s with sessions := { map := (id, s.sessions.nextId) :: s.sessions.map,
                                   nextId := s.sessions.nextId + 1 } }
            queue group
        else (.error (.upstream "NewConsumer"), s)

/-- Acknowledge a message (`queueImp.AckMsg`, lines 477-479): always
`NotImplemented`. -/
def AckMsg (queue group : String) : Except Err Unit :=
  .error (.notImplemented "ack")

/-- Send-side metrics query (`queueImp.GetSendMetrics`, lines 481-493):
strict existence check, then delegation to the Metrics Recorder. -/
def GetSendMetrics (e : Env) (s : QueueState) (queue group : String)
    (startTime endTime intervalnum : Int) : Except Err Int :=
  match existTopic e s.broker queue true with
  | .error er => .error er
  | .ok exist =>
    if !exist then .error (.notFound ("GetSendMetrics queue:" ++ queue ++ " "))
    else queryMetrics e

/-- Receive-side metrics query (`queueImp.GetReceiveMetrics`, lines 495-505). -/
def GetReceiveMetrics (e : Env) (s : QueueState) (queue group : String)
    (startTime endTime intervalnum : Int) : Except Err Int :=
  match existTopic e s.broker queue true with
  | .error er => .error er
  | .ok exist =>
    if !exist then .error (.notFound ("GetReceiveMetrics queue:" ++ queue ++ " "))
    else queryMetrics e

/-! Concrete fixtures used by closed theorems and witnesses. -/

/-- Environment in which every external call succeeds. -/
def env0 : Env := {}

/-- A sample configuration with distinguishable replication and partition counts. -/
def conf0 : Config := { kafkaReplications := 3, kafkaPartitions := 8 }

/-- Service state with both stores empty. -/
def emptyState : QueueState := {}

/-- State whose Broker Registry (authoritative and cached) knows topic `q`
while the Extended Metadata Store is empty: a one-store-only queue. -/
def sTopicQ : QueueState :=
  { broker := { topics := [{ name := "q", replications := 1, partitions := 1 }],
                cachedNames := ["q"] } }

/-- State with two queues, each owning one group with a stored ACL record. -/
def sTwoQueues : QueueState :=
  { meta := { queues := [("q1", 5), ("q2", 7)],
              queueGroups := [("q1", ["g1"]), ("q2", ["g2"])],
              groupQueues := [("g1", ["q1"]), ("g2", ["q2"])],
              configs := [{ group := "g1", queue := "q1", write := true, read := true,
                            url := "u1", ips := [] },
                          { group := "g2", queue := "q2", write := true, read := false,
                            url := "u2", ips := ["ip2"] }] } }

/-- State whose broker cache (but not the authoritative registry) lists `q1`. -/
def sStale : QueueState := { broker := { topics := [], cachedNames := ["q1"] } }

/-! Claim theorems. -/

/-- C1: the claim says every name-taking operation returns InvalidArgument on
an empty name before any store is consulted.  The source constructs the
`NotValid` error but never returns it (a missing `return` in front of every
`errors.NotValidf` call), so empty names reach the stores: on empty stores
`Create("")` succeeds and registers a queue with an empty name,
`Delete("")`/`Update("")` return NotFound, and `AddGroup("", "q")` on an
existing queue succeeds — never an InvalidArgument. -/
theorem c1_empty_name_reaches_stores :
    (Create conf0 env0 emptyState "").1 = .ok ()
    ∧ (Create conf0 env0 emptyState "").2.meta.queues = [("", 0)]
    ∧ (Delete env0 emptyState "").1 = .error (.notFound "DeleteQueue queue: ")
    ∧ (Update env0 emptyState "").1 = .error (.notFound "UpdateQueue queue: ")
    ∧ (AddGroup env0 sTopicQ "" "q" true true "u" []).1 = .ok ()
    ∧ (UpdateGroup env0 sTopicQ "" "q" true true "u" []).1 = .ok ()
    ∧ (DeleteGroup env0 sTopicQ "" "q").1 = .ok () := by
  refine ⟨rfl, rfl, rfl, rfl, rfl, rfl, rfl⟩

/-- Shape of a successful `Create`: the metadata record is written first,
then the broker topic with the configured replication and partition counts. -/
lemma create_eq_of_fresh (conf : Config) (e : Env) (s : QueueState) (q : String)
    (h1 : e.existTopicOk = true) (h2 : e.existQueueOk = true) (h3 : e.addQueueOk = true)
    (h4 : e.createTopicOk = true)
    (htop : topicExists s.broker q = false) (hmeta : metaHas s.meta q = false) :
    Create conf e s q = (.ok (),
      { s with
          meta := { s.meta with
                      queues := (q, e.now) :: s.meta.queues,
                      queueGroups := (q, []) :: s.meta.queueGroups },
          broker := { s.broker with
                        topics := s.broker.topics ++
                          [{ name := q, replications := conf.kafkaReplications,
                             partitions := conf.kafkaPartitions }] } }) := by
  simp [Create, existTopic, existQueue, addQueue, createTopic, h1, h2, h3, h4, htop, hmeta]

/-- Shape of a successful `Delete`: the metadata record is removed first,
then the broker topic. -/
lemma delete_eq_of_present (e : Env) (s : QueueState) (q : String)
    (h1 : e.existTopicOk = true) (h2 : e.existQueueOk = true) (h3 : e.delQueueOk = true)
    (h4 : e.deleteTopicOk = true)
    (htop : topicExists s.broker q = true) (hmeta : metaHas s.meta q = true) :
    Delete e s q = (.ok (),
      { s with meta := { s.meta with
                 queues := s.meta.queues.filter (fun p => p.1 != q),
                 queueGroups := s.meta.queueGroups.filter (fun p => p.1 != q) },
               broker := { s.broker with
                 topics := s.broker.topics.filter (fun t => t.name != q) } }) := by
  simp [Delete, existTopic, existQueue, delQueue, deleteTopic, h1, h2, h3, h4, htop, hmeta]

/-- A `Delete` whose refreshing broker check comes back negative is a
NotFound that leaves the state untouched. -/
lemma delete_notFound_of_absent (e : Env) (s : QueueState) (q : String)
    (h1 : e.existTopicOk = true) (htop : topicExists s.broker q = false) :
    Delete e s q = (.error (.notFound ("DeleteQueue queue:" ++ q ++ " ")), s) := by
  simp [Delete, existTopic, h1, htop]

/-- Filtering out every element whose name is `q` leaves no element whose
name is `q` (broker topic lists). -/
lemma topicExists_filter_ne (l : List Topic) (q : String) :
    (l.filter (fun t => t.name != q)).any (fun t => t.name == q) = false := by
  induction l with
  | nil => rfl
  | cons a l ih =>
    by_cases h : a.name = q <;> simp [List.filter_cons, h, ih]

/-- Filtering out every pair whose key is `q` leaves no pair with key `q`
(metadata queue lists). -/
lemma keyExists_filter_ne (l : List (String × Int)) (q : String) :
    (l.filter (fun p => p.1 != q)).any (fun p => p.1 == q) = false := by
  induction l with
  | nil => rfl
  | cons a l ih =>
    by_cases h : a.1 = q <;> simp [List.filter_cons, h, ih]

/-- C2: `Create` on a non-empty name checks the Broker Registry first
(against the authoritative, refresh-forced view) and fails AlreadyExists if
the topic is there; then checks the Extended Metadata Store and fails
AlreadyExists if the record is there; otherwise it writes the metadata
record first and then creates the broker topic with the configured
replication and partition counts; if the topic creation fails the metadata
write is left in place (no rollback). -/
theorem c2_create_order_and_no_rollback (conf : Config) (e : Env) (s : QueueState)
    (q : String) (hq : q ≠ "") (h1 : e.existTopicOk = true) (h2 : e.existQueueOk = true)
    (h3 : e.addQueueOk = true) :
    (topicExists s.broker q = true →
      Create conf e s q = (.error (.alreadyExists ("CreateQueue queue:" ++ q ++ " ")), s))
    ∧ (topicExists s.broker q = false → metaHas s.meta q = true →
      Create conf e s q = (.error (.alreadyExists ("CreateQueue queue:" ++ q ++ " ")), s))
    ∧ (topicExists s.broker q = false → metaHas s.meta q = false → e.createTopicOk = true →
      Create conf e s q = (.ok (),
        { s with
            meta := { s.meta with
                        queues := (q, e.now) :: s.meta.queues,
                        queueGroups := (q, []) :: s.meta.queueGroups },
            broker := { s.broker with
                          topics := s.broker.topics ++
                            [{ name := q, replications := conf.kafkaReplications,
                               partitions := conf.kafkaPartitions }] } }))
    ∧ (topicExists s.broker q = false → metaHas s.meta q = false → e.createTopicOk = false →
      Create conf e s q = (.error (.upstream "CreateTopic"),
        { s with
            meta := { s.meta with
                        queues := (q, e.now) :: s.meta.queues,
                        queueGroups := (q, []) :: s.meta.queueGroups } })) := by
  refine ⟨?_, ?_, ?_, ?_⟩
  · intro htop
    simp [Create, existTopic, h1, htop]
  · intro htop hmeta
    simp [Create, existTopic, existQueue, h1, h2, htop, hmeta]
  · intro htop hmeta h4
    exact create_eq_of_fresh conf e s q h1 h2 h3 h4 htop hmeta
  · intro htop hmeta h4
    simp [Create, existTopic, existQueue, addQueue, createTopic, h1, h2, h3, h4, htop, hmeta]

/-- Witness for C2: creating `q1` on the empty service succeeds, writing the
metadata record and the broker topic with the configured layout (3, 8). -/
theorem c2_witness :
    Create conf0 env0 emptyState "q1" = (.ok (),
      { emptyState with
          meta := { emptyState.meta with queues := [("q1", 0)], queueGroups := [("q1", [])] },
          broker := { emptyState.broker with
            topics := [{ name := "q1", replications := 3, partitions := 8 }] } }) := by
  have h := (c2_create_order_and_no_rollback conf0 env0 emptyState "q1"
    (by decide) rfl rfl rfl).2.2.1 rfl rfl rfl
  exact h

/-- C3: `Delete` is NotFound, leaving the state untouched, when the queue is
absent from the Broker Registry or from the Extended Metadata Store;
otherwise it removes the metadata record first and the broker topic second
(a broker-side failure still leaves the metadata record deleted); and after
`Create(q)` then `Delete(q)` neither store holds `q` and a second `Delete(q)`
is NotFound. -/
theorem c3_delete_flow_and_roundtrip (conf : Config) (e : Env) (s : QueueState)
    (q : String) (h1 : e.existTopicOk = true) (h2 : e.existQueueOk = true) :
    (topicExists s.broker q = false →
      Delete e s q = (.error (.notFound ("DeleteQueue queue:" ++ q ++ " ")), s))
    ∧ (topicExists s.broker q = true → metaHas s.meta q = false →
      Delete e s q = (.error (.notFound ("DeleteQueue queue:" ++ q ++ " ")), s))
    ∧ (topicExists s.broker q = true → metaHas s.meta q = true → e.delQueueOk = true →
        e.deleteTopicOk = true →
      Delete e s q = (.ok (),
        { s with
            meta := { s.meta with
                        queues := s.meta.queues.filter (fun p => p.1 != q),
                        queueGroups := s.meta.queueGroups.filter (fun p => p.1 != q) },
            broker := { s.broker with
                          topics := s.broker.topics.filter (fun t => t.name != q) } }))
    ∧ (topicExists s.broker q = true → metaHas s.meta q = true → e.delQueueOk = true →
        e.deleteTopicOk = false →
      Delete e s q = (.error (.upstream "DeleteTopic"),
        { s with
            meta := { s.meta with
                        queues := s.meta.queues.filter (fun p => p.1 != q),
                        queueGroups := s.meta.queueGroups.filter (fun p => p.1 != q) } }))
    ∧ (topicExists s.broker q = false → metaHas s.meta q = false →
        e.addQueueOk = true → e.createTopicOk = true → e.delQueueOk = true →
        e.deleteTopicOk = true →
      topicExists ((Delete e (Create conf e s q).2 q).2).broker q = false
      ∧ metaHas ((Delete e (Create conf e s q).2 q).2).meta q = false
      ∧ (Delete e ((Delete e (Create conf e s q).2 q).2) q).1 =
          .error (.notFound ("DeleteQueue queue:" ++ q ++ " "))) := by
  refine ⟨?_, ?_, ?_, ?_, ?_⟩
  · intro htop
    exact delete_notFound_of_absent e s q h1 htop
  · intro htop hmeta
    simp [Delete, existTopic, existQueue, h1, h2, htop, hmeta]
  · intro htop hmeta h3 h4
    exact delete_eq_of_present e s q h1 h2 h3 h4 htop hmeta
  · intro htop hmeta h3 h4
    simp [Delete, existTopic, existQueue, delQueue, deleteTopic, h1, h2, h3, h4, htop, hmeta]
  · intro htop hmeta ha hc hd hdt
    rw [create_eq_of_fresh conf e s q h1 h2 ha hc htop hmeta]
    have h1top : topicExists { s.broker with
        topics := s.broker.topics ++
          [{ name := q, replications := conf.kafkaReplications,
             partitions := conf.kafkaPartitions }] } q = true := by
      simp [topicExists]
    have h1meta : metaHas { s.meta with
        queues := (q, e.now) :: s.meta.queues,
        queueGroups := (q, []) :: s.meta.queueGroups } q = true := by
      simp [metaHas]
    rw [delete_eq_of_present e _ q h1 h2 hd hdt h1top h1meta]
    refine ⟨?_, ?_, ?_⟩
    · simp [topicExists, topicExists_filter_ne]
    · simp [metaHas, keyExists_filter_ne]
    · rw [delete_notFound_of_absent e _ q h1 (by simp [topicExists, topicExists_filter_ne])]

/-- Witness for C3: the create/delete round trip on the empty service for
queue `q1`, ending in a NotFound on the second delete. -/
theorem c3_witness :
    topicExists ((Delete env0 (Create conf0 env0 emptyState "q1").2 "q1").2).broker "q1" = false
    ∧ metaHas ((Delete env0 (Create conf0 env0 emptyState "q1").2 "q1").2).meta "q1" = false
    ∧ (Delete env0 ((Delete env0 (Create conf0 env0 emptyState "q1").2 "q1").2) "q1").1 =
        .error (.notFound "DeleteQueue queue:q1 ") := by
  have h := (c3_delete_flow_and_roundtrip conf0 env0 emptyState "q1" rfl rfl).2.2.2.2
    rfl rfl rfl rfl rfl rfl
  exact h

/-- A key that `alookup` does not find is not among the stored keys. -/
lemma not_mem_keys_of_alookup_none (k : String) (l : List (String × α))
    (h : alookup k l = none) : k ∉ l.map Prod.fst := by
  induction l with
  | nil => simp
  | cons a l ih =>
    rw [alookup] at h
    by_cases hk : a.1 = k
    · simp [hk] at h
    · simp only [List.map_cons, List.mem_cons]
      rintro (rfl | hm)
      · exact hk rfl
      · exact ih (by simpa [hk] using h) hm

/-- C4: `ReceiveMsg` keys the session cache by `queue + "@" + group`; on a
cache miss with a working transport it constructs exactly one session
(construction counter +1) and caches it under that key; on a cache hit it
reuses the cached session and constructs nothing; if construction fails the
error is returned and the state (hence the cache) is unchanged; and the
cache never acquires a duplicate key. -/
theorem c4_session_cache (e : Env) (s : QueueState) (q g : String)
    (h1 : e.existTopicOk = true) (hc : cachedExists s.broker q = true) :
    (alookup (q ++ "@" ++ g) s.sessions.map = none → e.newConsumerOk = true →
      ((ReceiveMsg e s q g).2).sessions.map =
        (q ++ "@" ++ g, s.sessions.nextId) :: s.sessions.map
      ∧ ((ReceiveMsg e s q g).2).sessions.nextId = s.sessions.nextId + 1)
    ∧ (∀ sess, alookup (q ++ "@" ++ g) s.sessions.map = some sess →
        ((ReceiveMsg e s q g).2).sessions = s.sessions)
    ∧ (alookup (q ++ "@" ++ g) s.sessions.map = none → e.newConsumerOk = false →
        ReceiveMsg e s q g = (.error (.upstream "NewConsumer"), s))
    ∧ (List.Nodup (s.sessions.map.map Prod.fst) →
        List.Nodup ((((ReceiveMsg e s q g).2).sessions.map).map Prod.fst)) := by
  refine ⟨?_, ?_, ?_, ?_⟩
  · intro halk hn
    cases hr : e.recvData <;>
      simp [ReceiveMsg, existTopic, recvOnSession, h1, hc, halk, hn, hr]
  · intro sess halk
    cases hr : e.recvData <;>
      simp [ReceiveMsg, existTopic, recvOnSession, h1, hc, halk, hr]
  · intro halk hn
    simp [ReceiveMsg, existTopic, h1, hc, halk, hn]
  · intro hnd
    cases halk : alookup (q ++ "@" ++ g) s.sessions.map with
    | some sess =>
      cases hr : e.recvData <;>
        simp [ReceiveMsg, existTopic, recvOnSession, h1, hc, halk, hr, hnd]
    | none =>
      cases hn : e.newConsumerOk with
      | false => simp [ReceiveMsg, existTopic, h1, hc, halk, hn, hnd]
      | true =>
        have hmem := not_mem_keys_of_alookup_none (q ++ "@" ++ g) s.sessions.map halk
        cases hr : e.recvData <;>
          simp [ReceiveMsg, existTopic, recvOnSession, h1, hc, halk, hn, hr,
                List.nodup_cons, hmem, hnd]

/-- Witness for C4: a first receive on a fresh cache constructs session 0 and
stores it under the key `q1@g1`, moving the construction counter to 1. -/
theorem c4_witness :
    ((ReceiveMsg env0 sStale "q1" "g1").2).sessions.map = [("q1@g1", 0)]
    ∧ ((ReceiveMsg env0 sStale "q1" "g1").2).sessions.nextId = 1 := by
  have h := (c4_session_cache env0 sStale "q1" "g1" rfl rfl).1 rfl rfl
  exact h

/-- C5: on the empty service `Lookup("", "")` is indeed an empty list and no
error, but on two queues each owning one group the source's single
`groupConfigs` slice is shared across the outer loop, so the second queue's
`QueueInfo` also carries the first queue's group config: `q2` lists two
configs although the queue→groups index maps `q2` to the single group `g2`. -/
theorem c5_lookup_accumulates_across_queues :
    Lookup env0 emptyState "" "" = .ok []
    ∧ Lookup env0 sTwoQueues "" "" = .ok
        [{ queue := "q1", ctime := 5, length := 0,
           groups := [{ group := "g1", queue := "", write := true, read := true,
                        url := "u1", ips := [] }] },
         { queue := "q2", ctime := 7, length := 0,
           groups := [{ group := "g1", queue := "", write := true, read := true,
                        url := "u1", ips := [] },
                      { group := "g2", queue := "", write := true, read := false,
                        url := "u2", ips := ["ip2"] }] }]
    ∧ alookup "q2" sTwoQueues.meta.queueGroups = some ["g2"] := by
  refine ⟨rfl, rfl, rfl⟩

/-- C6 counterexample: in the state whose Broker Registry knows topic `q`
while the Extended Metadata Store has no record of it, the mutation
`AddGroup("g", "q", ...)` succeeds and the lookup `Lookup("q", "")` returns
an empty result with no error — both silently, refuting the claim that any
lookup or mutation on a one-store queue returns an error. -/
theorem c6_counterexample :
    topicExists sTopicQ.broker "q" = true
    ∧ metaHas sTopicQ.meta "q" = false
    ∧ (AddGroup env0 sTopicQ "g" "q" true true "u" []).1 = .ok ()
    ∧ Lookup env0 sTopicQ "q" "" = .ok [] := by
  refine ⟨rfl, rfl, rfl, rfl⟩

/-- C6 amended: only the lifecycle operations that consult both stores fail
on a one-store queue: whenever the Broker Registry and the Extended Metadata
Store disagree on a queue's existence, `Create` fails AlreadyExists and
`Delete` fails NotFound (operations that consult a single store, such as
`AddGroup` or `Lookup`, may succeed there). -/
theorem c6_amended_create_delete_fail_on_disagreement (conf : Config) (e : Env)
    (s : QueueState) (q : String) (h1 : e.existTopicOk = true)
    (h2 : e.existQueueOk = true)
    (hdis : topicExists s.broker q ≠ metaHas s.meta q) :
    (Create conf e s q).1 = .error (.alreadyExists ("CreateQueue queue:" ++ q ++ " "))
    ∧ (Delete e s q).1 = .error (.notFound ("DeleteQueue queue:" ++ q ++ " ")) := by
  cases htop : topicExists s.broker q <;> cases hmeta : metaHas s.meta q
  · exact absurd (htop.trans hmeta.symm) hdis
  · constructor <;> simp [Create, Delete, existTopic, existQueue, h1, h2, htop, hmeta]
  · constructor <;> simp [Create, Delete, existTopic, existQueue, h1, h2, htop, hmeta]
  · exact absurd (htop.trans hmeta.symm) hdis

/-- Witness for C6 (amended): with topic `q` known only to the Broker
Registry, `Create` and `Delete` both fail. -/
theorem c6_witness :
    (Create conf0 env0 sTopicQ "q").1 = .error (.alreadyExists "CreateQueue queue:q ")
    ∧ (Delete env0 sTopicQ "q").1 = .error (.notFound "DeleteQueue queue:q ") := by
  have h := c6_amended_create_delete_fail_on_disagreement conf0 env0 sTopicQ "q"
    rfl rfl (by decide)
  exact h

/-- Replace the authoritative Broker Registry contents, keeping the client's
cached view and everything else. -/
def setTopics (s : QueueState) (L : List Topic) : QueueState :=
  { s with broker := { s.broker with topics := L } }

/-- Replace the client's cached view of the Broker Registry, keeping the
authoritative contents and everything else. -/
def setCached (s : QueueState) (C : List String) : QueueState :=
  { s with broker := { s.broker with cachedNames := C } }

/-- The outcome of `SendMsg` never reads the authoritative registry. -/
lemma sendMsg_fst_ignores_registry (e : Env) (s : QueueState) (q g : String)
    (d : List Nat) (L : List Topic) :
    (SendMsg e (setTopics s L) q g d).1 = (SendMsg e s q g d).1 := by
  by_cases h2 : q ∈ s.broker.cachedNames <;> cases h1 : e.existTopicOk <;>
    cases h3 : e.produceOk <;>
      simp [SendMsg, existTopic, produceMsg, setTopics, cachedExists, h1, h2, h3]

/-- The outcome of `ReceiveMsg` never reads the authoritative registry. -/
lemma receiveMsg_fst_ignores_registry (e : Env) (s : QueueState) (q g : String)
    (L : List Topic) :
    (ReceiveMsg e (setTopics s L) q g).1 = (ReceiveMsg e s q g).1 := by
  by_cases h2 : q ∈ s.broker.cachedNames <;> cases h1 : e.existTopicOk <;>
    cases halk : alookup (q ++ "@" ++ g) s.sessions.map <;>
      cases hn : e.newConsumerOk <;> cases hr : e.recvData <;>
        simp [ReceiveMsg, existTopic, recvOnSession, setTopics, cachedExists,
              h1, h2, halk, hn, hr]

/-- The outcome of `Create` never reads the cached registry view. -/
lemma create_fst_ignores_cache (conf : Config) (e : Env) (s : QueueState)
    (q : String) (C : List String) :
    (Create conf e (setCached s C) q).1 = (Create conf e s q).1 := by
  cases h1 : e.existTopicOk <;>
    cases h2 : s.broker.topics.any (fun t => t.name == q) <;>
      cases h3 : e.existQueueOk <;>
        cases h4 : s.meta.queues.any (fun p => p.1 == q) <;>
          cases h5 : e.addQueueOk <;>
            cases h6 : e.createTopicOk <;>
              simp [Create, existTopic, existQueue, addQueue, createTopic, setCached,
                    topicExists, metaHas, h1, h2, h3, h4, h5, h6]

/-- The outcome of `Update` never reads the cached registry view. -/
lemma update_fst_ignores_cache (e : Env) (s : QueueState) (q : String)
    (C : List String) :
    (Update e (setCached s C) q).1 = (Update e s q).1 := by
  cases h1 : e.existTopicOk <;>
    cases h2 : s.broker.topics.any (fun t => t.name == q) <;>
      simp [Update, existTopic, setCached, topicExists, h1, h2]

/-- The outcome of `Delete` never reads the cached registry view. -/
lemma delete_fst_ignores_cache (e : Env) (s : QueueState) (q : String)
    (C : List String) :
    (Delete e (setCached s C) q).1 = (Delete e s q).1 := by
  cases h1 : e.existTopicOk <;>
    cases h2 : s.broker.topics.any (fun t => t.name == q) <;>
      cases h3 : e.existQueueOk <;>
        cases h4 : s.meta.queues.any (fun p => p.1 == q) <;>
          cases h5 : e.delQueueOk <;>
            cases h6 : e.deleteTopicOk <;>
              simp [Delete, existTopic, existQueue, delQueue, deleteTopic, setCached,
                    topicExists, metaHas, h1, h2, h3, h4, h5, h6]

/-- The outcome of `AddGroup` never reads the cached registry view. -/
lemma addGroup_fst_ignores_cache (e : Env) (s : QueueState) (g q : String)
    (w r : Bool) (u : String) (ips : List String) (C : List String) :
    (AddGroup e (setCached s C) g q w r u ips).1 = (AddGroup e s g q w r u ips).1 := by
  cases h1 : e.existTopicOk <;>
    cases h2 : s.broker.topics.any (fun t => t.name == q) <;>
      cases h3 : e.addGroupConfigOk <;>
        simp [AddGroup, existTopic, addGroupConfig, setCached, topicExists, h1, h2, h3]

/-- The outcome of `UpdateGroup` never reads the cached registry view. -/
lemma updateGroup_fst_ignores_cache (e : Env) (s : QueueState) (g q : String)
    (w r : Bool) (u : String) (ips : List String) (C : List String) :
    (UpdateGroup e (setCached s C) g q w r u ips).1 = (UpdateGroup e s g q w r u ips).1 := by
  cases h1 : e.existTopicOk <;>
    cases h2 : s.broker.topics.any (fun t => t.name == q) <;>
      cases h3 : e.updateGroupConfigOk <;>
        simp [UpdateGroup, existTopic, updateGroupConfig, setCached, topicExists, h1, h2, h3]

/-- The outcome of `DeleteGroup` never reads the cached registry view. -/
lemma deleteGroup_fst_ignores_cache (e : Env) (s : QueueState) (g q : String)
    (C : List String) :
    (DeleteGroup e (setCached s C) g q).1 = (DeleteGroup e s g q).1 := by
  cases h1 : e.existTopicOk <;>
    cases h2 : s.broker.topics.any (fun t => t.name == q) <;>
      cases h3 : e.deleteGroupConfigOk <;>
        simp [DeleteGroup, existTopic, deleteGroupConfig, setCached, topicExists, h1, h2, h3]

/-- The result of `GetSingleGroup` never reads the cached registry view. -/
lemma getSingleGroup_ignores_cache (e : Env) (s : QueueState) (g q : String)
    (C : List String) :
    GetSingleGroup e (setCached s C) g q = GetSingleGroup e s g q := by
  cases h1 : e.existTopicOk <;>
    cases h2 : s.broker.topics.any (fun t => t.name == q) <;>
      simp [GetSingleGroup, existTopic, getGroupConfig, setCached, topicExists, h1, h2]

/-- The result of `GetSendMetrics` never reads the cached registry view. -/
lemma getSendMetrics_ignores_cache (e : Env) (s : QueueState) (q g : String)
    (a b n : Int) (C : List String) :
    GetSendMetrics e (setCached s C) q g a b n = GetSendMetrics e s q g a b n := by
  cases h1 : e.existTopicOk <;>
    cases h2 : s.broker.topics.any (fun t => t.name == q) <;>
      simp [GetSendMetrics, existTopic, queryMetrics, setCached, topicExists, h1, h2]

/-- The result of `GetReceiveMetrics` never reads the cached registry view. -/
lemma getReceiveMetrics_ignores_cache (e : Env) (s : QueueState) (q g : String)
    (a b n : Int) (C : List String) :
    GetReceiveMetrics e (setCached s C) q g a b n = GetReceiveMetrics e s q g a b n := by
  cases h1 : e.existTopicOk <;>
    cases h2 : s.broker.topics.any (fun t => t.name == q) <;>
      simp [GetReceiveMetrics, existTopic, queryMetrics, setCached, topicExists, h1, h2]

/-- C7: the send/receive outcomes depend only on the cached (non-refreshed)
registry view — replacing the authoritative registry contents changes
nothing — whereas every lifecycle, group and metrics operation depends only
on the authoritative (refresh-forced) view — replacing the cached view
changes nothing; consequently, in the state whose cache still lists `q1`
after the topic vanished from the registry, `SendMsg` succeeds while
`GetSendMetrics` on the same queue fails NotFound. -/
theorem c7_lenient_vs_strict_existence :
    (∀ e s q g d L, (SendMsg e (setTopics s L) q g d).1 = (SendMsg e s q g d).1)
    ∧ (∀ e s q g L, (ReceiveMsg e (setTopics s L) q g).1 = (ReceiveMsg e s q g).1)
    ∧ (∀ conf e s q C, (Create conf e (setCached s C) q).1 = (Create conf e s q).1)
    ∧ (∀ e s q C, (Update e (setCached s C) q).1 = (Update e s q).1)
    ∧ (∀ e s q C, (Delete e (setCached s C) q).1 = (Delete e s q).1)
    ∧ (∀ e s g q w r u ips C,
        (AddGroup e (setCached s C) g q w r u ips).1 = (AddGroup e s g q w r u ips).1)
    ∧ (∀ e s g q w r u ips C,
        (UpdateGroup e (setCached s C) g q w r u ips).1 = (UpdateGroup e s g q w r u ips).1)
    ∧ (∀ e s g q C, (DeleteGroup e (setCached s C) g q).1 = (DeleteGroup e s g q).1)
    ∧ (∀ e s g q C, GetSingleGroup e (setCached s C) g q = GetSingleGroup e s g q)
    ∧ (∀ e s q g a b n C, GetSendMetrics e (setCached s C) q g a b n = GetSendMetrics e s q g a b n)
    ∧ (∀ e s q g a b n C,
        GetReceiveMetrics e (setCached s C) q g a b n = GetReceiveMetrics e s q g a b n)
    ∧ (SendMsg env0 sStale "q1" "g1" [1]).1 = .ok ()
    ∧ GetSendMetrics env0 sStale "q1" "g1" 0 10 2 =
        .error (.notFound "GetSendMetrics queue:q1 ") := by
  refine ⟨?_, ?_, ?_, ?_, ?_, ?_, ?_, ?_, ?_, ?_, ?_, rfl, rfl⟩
  · exact fun e s q g d L => sendMsg_fst_ignores_registry e s q g d L
  · exact fun e s q g L => receiveMsg_fst_ignores_registry e s q g L
  · exact fun conf e s q C => create_fst_ignores_cache conf e s q C
  · exact fun e s q C => update_fst_ignores_cache e s q C
  · exact fun e s q C => delete_fst_ignores_cache e s q C
  · exact fun e s g q w r u ips C => addGroup_fst_ignores_cache e s g q w r u ips C
  · exact fun e s g q w r u ips C => updateGroup_fst_ignores_cache e s g q w r u ips C
  · exact fun e s g q C => deleteGroup_fst_ignores_cache e s g q C
  · exact fun e s g q C => getSingleGroup_ignores_cache e s g q C
  · exact fun e s q g a b n C => getSendMetrics_ignores_cache e s q g a b n C
  · exact fun e s q g a b n C => getReceiveMetrics_ignores_cache e s q g a b n C

/-- Bumping a counter adds exactly `n` to the bumped key. -/
lemma getCount_bumpCount_self (l : List ((String × String) × Nat))
    (k : String × String) (n : Nat) :
    getCount (bumpCount l k n) k = getCount l k + n := by
  induction l with
  | nil => simp [bumpCount, getCount]
  | cons a l ih =>
    by_cases h : a.1 = k
    · simp [bumpCount, getCount, h]
    · simp [bumpCount, getCount, h, ih]

/-- Bumping a counter leaves every other key's count unchanged. -/
lemma getCount_bumpCount_ne (l : List ((String × String) × Nat))
    (k k2 : String × String) (n : Nat) (h : k2 ≠ k) :
    getCount (bumpCount l k n) k2 = getCount l k2 := by
  induction l with
  | nil => simp [bumpCount, getCount, h, Ne.symm h]
  | cons a l ih =>
    by_cases ha : a.1 = k
    · simp [bumpCount, getCount, ha, h, Ne.symm h]
    · by_cases ha2 : a.1 = k2 <;> simp [bumpCount, getCount, ha, ha2, h, Ne.symm h, ih]

/-- C8: when the (cached) existence check passes, `SendMsg` appends the
payload to the transport log keyed by the queue alone and bumps the
(queue, group) send counter by exactly 1; when the produce fails, the error
is returned and the state — counters included — is untouched; and the
produced log never depends on the group argument. -/
theorem c8_sendMsg_metrics (e : Env) (s : QueueState) (q g : String) (d : List Nat)
    (h1 : e.existTopicOk = true) (hc : cachedExists s.broker q = true) :
    (e.produceOk = true →
      SendMsg e s q g d = (.ok (),
        { s with producedLog := s.producedLog ++ [(q, d)],
                 sendCounts := bumpCount s.sendCounts (q, g) 1 })
      ∧ getCount ((SendMsg e s q g d).2).sendCounts (q, g) = getCount s.sendCounts (q, g) + 1
      ∧ ∀ k, k ≠ (q, g) →
          getCount ((SendMsg e s q g d).2).sendCounts k = getCount s.sendCounts k)
    ∧ (e.produceOk = false → SendMsg e s q g d = (.error (.upstream "Send"), s))
    ∧ (∀ g2, ((SendMsg e s q g2 d).2).producedLog = ((SendMsg e s q g d).2).producedLog) := by
  have hc2 : q ∈ s.broker.cachedNames := by simpa [cachedExists] using hc
  refine ⟨?_, ?_, ?_⟩
  · intro hp
    refine ⟨?_, ?_, ?_⟩
    · simp [SendMsg, existTopic, produceMsg, cachedExists, h1, hc2, hp]
    · simp [SendMsg, existTopic, produceMsg, cachedExists, h1, hc2, hp,
            getCount_bumpCount_self]
    · intro k hk
      simp [SendMsg, existTopic, produceMsg, cachedExists, h1, hc2, hp,
            getCount_bumpCount_ne _ _ _ _ hk]
  · intro hp
    simp [SendMsg, existTopic, produceMsg, cachedExists, h1, hc2, hp]
  · intro g2
    cases hp : e.produceOk <;>
      simp [SendMsg, existTopic, produceMsg, cachedExists, h1, hc2, hp]

/-- Witness for C8: a send on the stale-cache state appends `("q1", [7])` to
the log and sets the ("q1","g1") send counter to 1. -/
theorem c8_witness :
    SendMsg env0 sStale "q1" "g1" [7] = (.ok (),
      { sStale with producedLog := [("q1", [7])],
                    sendCounts := [(("q1", "g1"), 1)] }) := by
  have h := ((c8_sendMsg_metrics env0 sStale "q1" "g1" [7] rfl rfl).1 rfl).1
  exact h

/-- Every config produced by the inner `Lookup` loop keeps the queue-name
field at its zero value (the loop copies Group/Write/Read/Url/Ips only). -/
lemma lookupQueueGroups_queue_unset (e : Env) (m : MetaStore) (qn : String) :
    ∀ (names : List String) (gcs out : List GroupConfig),
      lookupQueueGroups e m qn names gcs = .ok out →
      (∀ x ∈ gcs, x.queue = "") → ∀ x ∈ out, x.queue = "" := by
  intro names
  induction names with
  | nil =>
    intro gcs out h hg
    simp only [lookupQueueGroups, Except.ok.injEq] at h
    exact h ▸ hg
  | cons a rest ih =>
    intro gcs out h hg
    simp only [lookupQueueGroups] at h
    cases hgc : getGroupConfig e m a qn with
    | error er => rw [hgc] at h; simp at h
    | ok oc =>
      rw [hgc] at h
      cases oc with
      | none => exact ih gcs out h hg
      | some c =>
        refine ih _ out h ?_
        intro x hx
        rcases List.mem_append.1 hx with hx | hx
        · exact hg x hx
        · simp only [List.mem_singleton] at hx
          rw [hx]

/-- Every config inside any `QueueInfo` produced by the outer `Lookup` loop
keeps the queue-name field at its zero value. -/
lemma lookupAllQueues_queue_unset (e : Env) (m : MetaStore) :
    ∀ (pairs : List (String × List String)) (acc : List QueueInfo)
      (gcs : List GroupConfig) (out : List QueueInfo),
      lookupAllQueues e m pairs acc gcs = .ok out →
      (∀ qi ∈ acc, ∀ x ∈ qi.groups, x.queue = "") →
      (∀ x ∈ gcs, x.queue = "") →
      ∀ qi ∈ out, ∀ x ∈ qi.groups, x.queue = "" := by
  intro pairs
  induction pairs with
  | nil =>
    intro acc gcs out h hacc hgcs
    simp only [lookupAllQueues, Except.ok.injEq] at h
    exact h ▸ hacc
  | cons p rest ih =>
    obtain ⟨qName, gNames⟩ := p
    intro acc gcs out h hacc hgcs
    simp only [lookupAllQueues] at h
    cases hlg : lookupQueueGroups e m qName gNames gcs with
    | error er => rw [hlg] at h; simp at h
    | ok gcs2 =>
      rw [hlg] at h
      cases hct : queueCreateTime e m qName with
      | error er => rw [hct] at h; simp at h
      | ok ct =>
        rw [hct] at h
        have hgcs2 : ∀ x ∈ gcs2, x.queue = "" :=
          lookupQueueGroups_queue_unset e m qName gNames gcs gcs2 hlg hgcs
        refine ih _ gcs2 out h ?_ hgcs2
        intro qi hqi
        rcases List.mem_append.1 hqi with hqi | hqi
        · exact hacc qi hqi
        · simp only [List.mem_singleton] at hqi
          rw [hqi]
          exact hgcs2

/-- Every config produced by the inner `LookupGroup` loop keeps the
group-name field at its zero value (the loop copies Queue/Write/Read/Url/Ips
only). -/
lemma lookupGroupQueues_group_unset (e : Env) (m : MetaStore) (gn : String) :
    ∀ (names : List String) (gcs out : List GroupConfig),
      lookupGroupQueues e m gn names gcs = .ok out →
      (∀ x ∈ gcs, x.group = "") → ∀ x ∈ out, x.group = "" := by
  intro names
  induction names with
  | nil =>
    intro gcs out h hg
    simp only [lookupGroupQueues, Except.ok.injEq] at h
    exact h ▸ hg
  | cons a rest ih =>
    intro gcs out h hg
    simp only [lookupGroupQueues] at h
    cases hgc : getGroupConfig e m gn a with
    | error er => rw [hgc] at h; simp at h
    | ok oc =>
      rw [hgc] at h
      cases oc with
      | none => exact ih gcs out h hg
      | some c =>
        refine ih _ out h ?_
        intro x hx
        rcases List.mem_append.1 hx with hx | hx
        · exact hg x hx
        · simp only [List.mem_singleton] at hx
          rw [hx]

/-- Every config inside any `GroupInfo` produced by the outer `LookupGroup`
loop keeps the group-name field at its zero value. -/
lemma lookupAllGroups_group_unset (e : Env) (m : MetaStore) :
    ∀ (pairs : List (String × List String)) (acc : List GroupInfo)
      (gcs : List GroupConfig) (out : List GroupInfo),
      lookupAllGroups e m pairs acc gcs = .ok out →
      (∀ gi ∈ acc, ∀ x ∈ gi.queues, x.group = "") →
      (∀ x ∈ gcs, x.group = "") →
      ∀ gi ∈ out, ∀ x ∈ gi.queues, x.group = "" := by
  intro pairs
  induction pairs with
  | nil =>
    intro acc gcs out h hacc hgcs
    simp only [lookupAllGroups, Except.ok.injEq] at h
    exact h ▸ hacc
  | cons p rest ih =>
    obtain ⟨gName, qNames⟩ := p
    intro acc gcs out h hacc hgcs
    simp only [lookupAllGroups] at h
    cases hlg : lookupGroupQueues e m gName qNames gcs with
    | error er => rw [hlg] at h; simp at h
    | ok gcs2 =>
      rw [hlg] at h
      have hgcs2 : ∀ x ∈ gcs2, x.group = "" :=
        lookupGroupQueues_group_unset e m gName qNames gcs gcs2 hlg hgcs
      refine ih _ gcs2 out h ?_ hgcs2
      intro gi hgi
      rcases List.mem_append.1 hgi with hgi | hgi
      · exact hacc gi hgi
      · simp only [List.mem_singleton] at hgi
        rw [hgi]
        exact hgcs2

/-- C9 counterexample: `Lookup("q1", "g1")` on the two-queue state returns a
GroupConfig whose group-name field is `"g1"`, not unset — `Lookup` copies the
stored record's Group field (it is the Queue field that it leaves unset),
the opposite of what the claim states. -/
theorem c9_counterexample :
    Lookup env0 sTwoQueues "q1" "g1" = .ok
      [{ queue := "q1", ctime := 5, length := 0,
         groups := [{ group := "g1", queue := "", write := true, read := true,
                      url := "u1", ips := [] }] }]
    ∧ ({ group := "g1", queue := "", write := true, read := true,
         url := "u1", ips := [] } : GroupConfig).group ≠ "" := by
  exact ⟨rfl, by decide⟩

/-- C9 amended: every GroupConfig returned by `Lookup` has its queue-name
field unset (it carries Group/Write/Read/Url/Ips; the queue is implied by
the lookup context), while every GroupConfig returned by `LookupGroup` has
its group-name field unset (it carries Queue/Write/Read/Url/Ips) — the
asymmetry of the source, with the two name fields swapped relative to the
claim. -/
theorem c9_field_asymmetry (e : Env) (s : QueueState) :
    (∀ q g res, Lookup e s q g = .ok res →
      ∀ qi ∈ res, ∀ gc ∈ qi.groups, gc.queue = "")
    ∧ (∀ g res, LookupGroup e s g = .ok res →
      ∀ gi ∈ res, ∀ gc ∈ gi.queues, gc.group = "") := by
  constructor
  · intro q g res h qi hqi gc hgc
    by_cases hq : q = ""
    · subst hq
      simp only [Lookup, if_true, eq_self_iff_true] at h
      cases hm : getQueueMap e s.meta with
      | error er => simp [hm] at h
      | ok qm =>
        simp only [hm] at h
        exact lookupAllQueues_queue_unset e s.meta qm [] [] res h
          (by simp) (by simp) qi hqi gc hgc
    · by_cases hg : g = ""
      · subst hg
        simp only [Lookup, if_neg hq, if_true, eq_self_iff_true] at h
        cases hm : getQueueMap e s.meta with
        | error er => simp [hm] at h
        | ok qm =>
          simp only [hm] at h
          cases hal : alookup q qm with
          | none =>
            simp only [hal, Except.ok.injEq] at h
            rw [← h] at hqi
            simp at hqi
          | some gNames =>
            simp only [hal] at h
            cases hlg : lookupQueueGroups e s.meta q gNames [] with
            | error er => simp [hlg] at h
            | ok gcs =>
              simp only [hlg] at h
              cases hct : queueCreateTime e s.meta q with
              | error er => simp [hct] at h
              | ok ct =>
                simp only [hct, Except.ok.injEq] at h
                rw [← h] at hqi
                simp only [List.mem_singleton] at hqi
                rw [hqi] at hgc
                exact lookupQueueGroups_queue_unset e s.meta q gNames [] gcs hlg
                  (by simp) gc hgc
      · simp only [Lookup, if_neg hq, if_neg hg] at h
        cases hgc2 : getGroupConfig e s.meta g q with
        | error er => simp [hgc2] at h
        | ok oc =>
          simp only [hgc2] at h
          cases hct : queueCreateTime e s.meta q with
          | error er => simp [hct] at h
          | ok ct =>
            simp only [hct, Except.ok.injEq] at h
            cases oc with
            | none =>
              rw [← h] at hqi
              simp only [List.mem_singleton] at hqi
              rw [hqi] at hgc
              simp at hgc
            | some c =>
              rw [← h] at hqi
              simp only [List.mem_singleton] at hqi
              rw [hqi] at hgc
              simp only [List.mem_singleton] at hgc
              rw [hgc]
  · intro g res h gi hgi gc hgc
    by_cases hg : g = ""
    · subst hg
      simp only [LookupGroup, if_true, eq_self_iff_true] at h
      cases hm : getGroupMap e s.meta with
      | error er => simp [hm] at h
      | ok gm =>
        simp only [hm] at h
        exact lookupAllGroups_group_unset e s.meta gm [] [] res h
          (by simp) (by simp) gi hgi gc hgc
    · simp only [LookupGroup, if_neg hg] at h
      cases hm : getGroupMap e s.meta with
      | error er => simp [hm] at h
      | ok gm =>
        simp only [hm] at h
        cases hal : alookup g gm with
        | none =>
          simp only [hal, Except.ok.injEq] at h
          rw [← h] at hgi
          simp at hgi
        | some qNames =>
          simp only [hal] at h
          cases hlg : lookupGroupQueues e s.meta g qNames [] with
          | error er => simp [hlg] at h
          | ok gcs =>
            simp only [hlg, Except.ok.injEq] at h
            rw [← h] at hgi
            simp only [List.mem_singleton] at hgi
            rw [hgi] at hgc
            exact lookupGroupQueues_group_unset e s.meta g qNames [] gcs hlg
              (by simp) gc hgc

/-- Witness for C9 (amended): on the two-queue state, the config that
`Lookup("q1", "g1")` returns has its queue-name field unset. -/
theorem c9_witness :
    ({ group := "g1", queue := "", write := true, read := true,
       url := "u1", ips := [] } : GroupConfig).queue = "" := by
  exact (c9_field_asymmetry env0 sTwoQueues).1 "q1" "g1"
    [{ queue := "q1", ctime := 5, length := 0,
       groups := [{ group := "g1", queue := "", write := true, read := true,
                    url := "u1", ips := [] }] }] rfl
    { queue := "q1", ctime := 5, length := 0,
      groups := [{ group := "g1", queue := "", write := true, read := true,
                   url := "u1", ips := [] }] } (by simp)
    { group := "g1", queue := "", write := true, read := true,
      url := "u1", ips := [] } (by simp)

/-- Replace the whole Extended Metadata Store (queues, indexes and every
group ACL record), keeping everything else. -/
def setMeta (s : QueueState) (M : MetaStore) : QueueState := { s with meta := M }

/-- A send never reads the metadata store: its result is unchanged and its
state effect commutes with any replacement of the metadata store. -/
lemma sendMsg_meta_noninterference (e : Env) (s : QueueState) (q g : String)
    (d : List Nat) (M : MetaStore) :
    (SendMsg e (setMeta s M) q g d).1 = (SendMsg e s q g d).1
    ∧ (SendMsg e (setMeta s M) q g d).2 = setMeta (SendMsg e s q g d).2 M := by
  by_cases h2 : q ∈ s.broker.cachedNames <;> cases h1 : e.existTopicOk <;>
    cases h3 : e.produceOk <;>
      simp [SendMsg, existTopic, produceMsg, setMeta, cachedExists, h1, h2, h3]

/-- A receive never reads the metadata store: its result is unchanged and its
state effect commutes with any replacement of the metadata store. -/
lemma receiveMsg_meta_noninterference (e : Env) (s : QueueState) (q g : String)
    (M : MetaStore) :
    (ReceiveMsg e (setMeta s M) q g).1 = (ReceiveMsg e s q g).1
    ∧ (ReceiveMsg e (setMeta s M) q g).2 = setMeta (ReceiveMsg e s q g).2 M := by
  by_cases h2 : q ∈ s.broker.cachedNames <;> cases h1 : e.existTopicOk <;>
    cases halk : alookup (q ++ "@" ++ g) s.sessions.map <;>
      cases hn : e.newConsumerOk <;> cases hr : e.recvData <;>
        simp [ReceiveMsg, existTopic, recvOnSession, setMeta, cachedExists,
              h1, h2, halk, hn, hr]

/-- C10: the outcome of `SendMsg` and `ReceiveMsg` is independent of the
group's stored ACL record: replacing the entire Extended Metadata Store —
in particular altering or deleting that group's write/read flags, URL and IP
allowlist — leaves both the returned value and the rest of the state effect
unchanged. -/
theorem c10_send_receive_ignore_acl :
    (∀ e s q g d M, (SendMsg e (setMeta s M) q g d).1 = (SendMsg e s q g d).1
      ∧ (SendMsg e (setMeta s M) q g d).2 = setMeta (SendMsg e s q g d).2 M)
    ∧ (∀ e s q g M, (ReceiveMsg e (setMeta s M) q g).1 = (ReceiveMsg e s q g).1
      ∧ (ReceiveMsg e (setMeta s M) q g).2 = setMeta (ReceiveMsg e s q g).2 M) := by
  constructor
  · exact fun e s q g d M => sendMsg_meta_noninterference e s q g d M
  · exact fun e s q g M => receiveMsg_meta_noninterference e s q g M

end Wqs
